import Mathlib

/-!
# Callora backend — verification of the billing idempotency protocol and the
token-bucket rate limiter

Shallow embedding of:

* `BillingService.deduct` (idempotent billing deduction over a `usage_events`
  Postgres table with a UNIQUE constraint on `request_id`), and
* `RateLimiter.checkLimit` / its administrative operations (in-memory token
  bucket), together with the `extractUserId` / `perUserRateLimit` middleware.

Modelling conventions:

* The `usage_events` table is a list of rows; the UNIQUE index on
  `request_id` is part of the `insertRow` operation, which refuses a row
  whose `request_id` is already present (Postgres error code 23505).
* A `deduct` call runs inside one store transaction.  Under READ COMMITTED
  the initial `SELECT` may observe a snapshot that lags the committed store
  (a concurrent winner may commit between the snapshot and our `INSERT`),
  so the call takes two store arguments: `snapshot` (what the initial
  `SELECT` sees) and `store` (the committed store at the serialization
  point of the transaction's writes).  A sequential call passes the same
  store for both.  Because the unique index makes conflicting inserts on
  one key block until the earlier transaction resolves, the insert-to-commit
  section of the code serializes per key, which is what justifies treating
  each call's effect on the committed store as atomic.
* The Soroban ledger client is an oracle `SorobanOutcome`: it returns a
  transaction hash, fails with a message, or never returns (`hangs`).
* Failures of individual store queries (connection dropped mid-query, etc.)
  are injected through `StoreFailures`; `connect` models `pool.connect()`.
* JavaScript `number` arithmetic in the rate limiter is embedded as exact
  rational arithmetic (`ℚ`); `Math.floor` / `Math.ceil` become `Int.floor` /
  `Int.ceil`.
-/

/-! ## Billing data model (`src/unnamed/part_012`, `usage_events` schema) -/

/-- Input of `BillingService.deduct`; `requestId` is the idempotency key. -/
structure BillingDeductRequest where
  requestId : String
  userId : String
  apiId : String
  endpointId : String
  apiKeyId : String
  amountUsdc : String
deriving Repr, DecidableEq

/-- Structured result returned by `BillingService.deduct`.
TypeScript optional fields (`stellarTxHash?`, `error?`) become `Option`. -/
structure BillingDeductResult where
  success : Bool
  usageEventId : String
  stellarTxHash : Option String
  alreadyProcessed : Bool
  error : Option String
deriving Repr, DecidableEq

/-- One row of the `usage_events` table (migration
`001_create_usage_events.sql`): `request_id` carries a UNIQUE constraint,
`stellar_tx_hash` is nullable. -/
structure UsageEventRow where
  id : Nat
  user_id : String
  api_id : String
  endpoint_id : String
  api_key_id : String
  amount_usdc : String
  request_id : String
  stellar_tx_hash : Option String
deriving Repr, DecidableEq

/-- The committed contents of the `usage_events` table. -/
abbrev UsageEventsStore := List UsageEventRow

/-- Embedding of `SELECT id, stellar_tx_hash FROM usage_events WHERE
request_id = $1`. -/
def findByRequestId (s : UsageEventsStore) (key : String) : Option UsageEventRow :=
  s.find? (fun r => r.request_id == key)

/-- Message of a Postgres unique-constraint violation (error code 23505). -/
def uniqueViolationMsg : String :=
  "duplicate key value violates unique constraint"

/-- Embedding of `INSERT INTO usage_events ... VALUES ...`: the UNIQUE index
on `request_id` rejects a duplicate key with error code 23505. -/
def insertRow (s : UsageEventsStore) (r : UsageEventRow) :
    Except String UsageEventsStore :=
  if s.any (fun q => q.request_id == r.request_id) then
    .error uniqueViolationMsg
  else
    .ok (s ++ [r])

/-- Embedding of `UPDATE usage_events SET stellar_tx_hash = $1 WHERE id = $2`. -/
def updateTxHash (s : UsageEventsStore) (id : Nat) (hash : String) :
    UsageEventsStore :=
  s.map (fun r => if r.id == id then { r with stellar_tx_hash := some hash } else r)

/-- The row inserted by the fresh-key branch of `deduct`: all request fields,
no `stellar_tx_hash` yet (`RETURNING id` supplies `nextId`). -/
def mkUsageEventRow (req : BillingDeductRequest) (nextId : Nat) : UsageEventRow :=
  { id := nextId
    user_id := req.userId
    api_id := req.apiId
    endpoint_id := req.endpointId
    api_key_id := req.apiKeyId
    amount_usdc := req.amountUsdc
    request_id := req.requestId
    stellar_tx_hash := none }

/-- Outcome of one call to `sorobanClient.deductBalance`. -/
inductive SorobanOutcome
  | ok (txHash : String)
  | fail (msg : String)
  | hangs
deriving Repr, DecidableEq

/-- Injected failures of individual store queries inside the `try` block
(anything that makes `client.query` throw other than the unique constraint,
e.g. a dropped connection).  `none` means the query executes normally. -/
structure StoreFailures where
  selectFail : Option String
  insertFail : Option String
  updateFail : Option String
deriving Repr, DecidableEq

/-- No injected store-query failure. -/
def noStoreFailures : StoreFailures :=
  { selectFail := none, insertFail := none, updateFail := none }

/-- Observable store/ledger events of one `deduct` call, in program order. -/
inductive BillingEv
  | beginTx
  | selectByRequestId (key : String)
  | insertUsageEvent (row : UsageEventRow)
  | sorobanDeduct (userId : String) (amount : String)
  | updateStellarTxHash (id : Nat) (hash : String)
  | commitTx
  | rollbackTx
deriving Repr, DecidableEq

/-- How one `deduct` call ends.

* `thrown`: a rejected promise escapes `deduct` (only `pool.connect()` sits
  outside the `try`/`catch`); the committed store is unchanged.
* `returns`: `deduct` resolves with a structured result; the second field is
  the committed store afterwards.
* `hung`: the ledger call never returned; the transaction is still open,
  holding the uncommitted reservation row `pending`; the committed store is
  unchanged. -/
inductive DeductOutcome
  | thrown (msg : String) (store : UsageEventsStore)
  | returns (result : BillingDeductResult) (store : UsageEventsStore)
  | hung (store : UsageEventsStore) (pending : UsageEventRow)
deriving Repr, DecidableEq

/-- Committed `usage_events` contents after the call. -/
def DeductOutcome.committed : DeductOutcome → UsageEventsStore
  | .thrown _ s => s
  | .returns _ s => s
  | .hung s _ => s

/-- A `deduct` result with `success: false` and an error message, as built by
the outer `catch` block (`usageEventId: ''`, no hash). -/
def failureResult (msg : String) : BillingDeductResult :=
  { success := false
    usageEventId := ""
    stellarTxHash := none
    alreadyProcessed := false
    error := some msg }

/-- The already-processed result built from an existing row: its `id` and
stored `stellar_tx_hash`, `success: true`, `alreadyProcessed: true`. -/
def alreadyProcessedResult (row : UsageEventRow) : BillingDeductResult :=
  { success := true
    usageEventId := toString row.id
    stellarTxHash := row.stellar_tx_hash
    alreadyProcessed := true
    error := none }

/-- Embedding of `BillingService.deduct` (src/unnamed/part_012, lines 66–177).

Control flow of the source, in order:
`pool.connect()` (outside the `try`: a rejection propagates), `BEGIN`,
`SELECT` by `request_id` (answered from `snapshot`), early return of the
existing row with `alreadyProcessed: true`; otherwise `INSERT` of the
reservation row (checked against the committed `store`), the Soroban call,
`UPDATE` of the hash, `COMMIT`.  A Soroban failure raises, the `catch`
issues `ROLLBACK` and either resolves a 23505 unique violation by
re-reading the committed winner row, or returns
`{ success: false, error: message }`. -/
def BillingService.deduct (req : BillingDeductRequest) (connect : Except String Unit)
    (fails : StoreFailures) (snapshot store : UsageEventsStore)
    (soroban : SorobanOutcome) (nextId : Nat) :
    DeductOutcome × List BillingEv :=
  match connect with
  | .error msg => (.thrown msg store, [])
  | .ok _ =>
    match fails.selectFail with
    | some msg =>
        -- the SELECT threw: caught, ROLLBACK, not code 23505, structured failure
        (.returns (failureResult msg) store, [.beginTx, .rollbackTx])
    | none =>
      match findByRequestId snapshot req.requestId with
      | some row =>
          -- idempotency hit: COMMIT and return the stored result
          (.returns (alreadyProcessedResult row) store,
           [.beginTx, .selectByRequestId req.requestId, .commitTx])
      | none =>
        match fails.insertFail with
        | some msg =>
            (.returns (failureResult msg) store,
             [.beginTx, .selectByRequestId req.requestId, .rollbackTx])
        | none =>
          let row := mkUsageEventRow req nextId
          match insertRow store row with
          | .error msg =>
              -- unique violation (code 23505): ROLLBACK, re-query committed store
              match findByRequestId store req.requestId with
              | some winner =>
                  (.returns (alreadyProcessedResult winner) store,
                   [.beginTx, .selectByRequestId req.requestId, .rollbackTx,
                    .selectByRequestId req.requestId])
              | none =>
                  (.returns (failureResult msg) store,
                   [.beginTx, .selectByRequestId req.requestId, .rollbackTx,
                    .selectByRequestId req.requestId])
          | .ok pendingStore =>
            match soroban with
            | .hangs =>
                -- deductBalance never settles: transaction stays open
                (.hung store row,
                 [.beginTx, .selectByRequestId req.requestId,
                  .insertUsageEvent row, .sorobanDeduct req.userId req.amountUsdc])
            | .fail msg =>
                -- inner catch: ROLLBACK, rethrow; outer catch: structured failure
                (.returns (failureResult msg) store,
                 [.beginTx, .selectByRequestId req.requestId,
                  .insertUsageEvent row, .sorobanDeduct req.userId req.amountUsdc,
                  .rollbackTx])
            | .ok txHash =>
                match fails.updateFail with
                | some msg =>
                    (.returns (failureResult msg) store,
                     [.beginTx, .selectByRequestId req.requestId,
                      .insertUsageEvent row, .sorobanDeduct req.userId req.amountUsdc,
                      .rollbackTx])
                | none =>
                    (.returns
                       { success := true
                         usageEventId := toString nextId
                         stellarTxHash := some txHash
                         alreadyProcessed := false
                         error := none }
                       (updateTxHash pendingStore nextId txHash),
                     [.beginTx, .selectByRequestId req.requestId,
                      .insertUsageEvent row, .sorobanDeduct req.userId req.amountUsdc,
                      .updateStellarTxHash nextId txHash, .commitTx])

/-- Number of `sorobanClient.deductBalance` invocations recorded in a trace. -/
def ledgerCalls (tr : List BillingEv) : Nat :=
  (tr.filter (fun e => match e with | .sorobanDeduct _ _ => true | _ => false)).length

/-- Holds (`true`) iff every `sorobanDeduct` event in the trace is preceded by
an earlier `insertUsageEvent` event (`seenInsert` carries whether one was
seen). -/
def ledgerAfterInsert (seenInsert : Bool) : List BillingEv → Bool
  | [] => true
  | .insertUsageEvent _ :: rest => ledgerAfterInsert true rest
  | .sorobanDeduct _ _ :: rest => seenInsert && ledgerAfterInsert seenInsert rest
  | _ :: rest => ledgerAfterInsert seenInsert rest

/-- Parameters of one `deduct` call in a (possibly concurrent) schedule; the
per-call `snapshot` is the committed store its initial `SELECT` observed,
which may lag the serialization point (READ COMMITTED). -/
structure DeductCall where
  req : BillingDeductRequest
  connect : Except String Unit
  fails : StoreFailures
  snapshot : UsageEventsStore
  soroban : SorobanOutcome
  nextId : Nat

/-- Committed store after running a schedule of `deduct` calls in
serialization order, each against the committed store left by the previous
one but with its own (possibly stale) snapshot. -/
def runDeducts (s : UsageEventsStore) (calls : List DeductCall) : UsageEventsStore :=
  calls.foldl
    (fun st c =>
      ((BillingService.deduct c.req c.connect c.fails c.snapshot st c.soroban
          c.nextId).1).committed)
    s

/-- The core store invariant: no two rows share a `request_id`. -/
def UniqueKeys (s : UsageEventsStore) : Prop :=
  (s.map UsageEventRow.request_id).Nodup

/-! ## Rate limiter data model (`src/src/services/RateLimiter.ts`) -/

/-- Configuration `RateLimitConfig`: `windowMs` in milliseconds,
`maxRequests` per window (the bucket capacity).  JavaScript numbers are
embedded as `ℚ`. -/
structure RateLimitConfig where
  windowMs : ℚ
  maxRequests : ℚ
deriving Repr, DecidableEq

/-- One token bucket (`RateLimitRecord`). -/
structure RateLimitRecord where
  tokens : ℚ
  lastRefillTime : ℚ
deriving Repr, DecidableEq

/-- Result `RateLimitResult` returned by `checkLimit` (`retryAfter` in
seconds). -/
structure RateLimitResult where
  allowed : Bool
  remaining : ℚ
  retryAfter : ℚ
deriving Repr, DecidableEq

/-- One of the two `Map<string, RateLimitRecord>` stores. -/
def RateLimitStore := String → Option RateLimitRecord

/-- Embedding of `store.set(key, record)`. -/
def storeSet (s : RateLimitStore) (key : String) (r : RateLimitRecord) :
    RateLimitStore :=
  fun k => if k = key then some r else s k

/-- Embedding of `store.delete(key)`. -/
def storeDelete (s : RateLimitStore) (key : String) : RateLimitStore :=
  fun k => if k = key then none else s k

/-- Embedding of `new Map()`. -/
def emptyStore : RateLimitStore := fun _ => none

/-- Embedding of `RateLimiter.checkLimit` (RateLimiter.ts, lines 66–120): the
token-bucket admission decision, returning the result and the updated store. -/
def RateLimiter.checkLimit (now : ℚ) (key : String) (config : RateLimitConfig)
    (store : RateLimitStore) : RateLimitResult × RateLimitStore :=
  match store key with
  | none =>
      -- initialize, consuming one token for this request
      let record : RateLimitRecord :=
        { tokens := config.maxRequests - 1, lastRefillTime := now }
      ({ allowed := true, remaining := record.tokens, retryAfter := 0 },
       storeSet store key record)
  | some record =>
      -- refill tokens based on elapsed time
      let timePassed := now - record.lastRefillTime
      let tokensToAdd := timePassed / config.windowMs * config.maxRequests
      let refilled := min config.maxRequests (record.tokens + tokensToAdd)
      if 1 ≤ refilled then
        let tokens := refilled - 1
        ({ allowed := true, remaining := ((⌊tokens⌋ : ℤ) : ℚ), retryAfter := 0 },
         storeSet store key { tokens := tokens, lastRefillTime := now })
      else
        let tokensNeeded := 1 - refilled
        let timeToWait := tokensNeeded / config.maxRequests * config.windowMs
        ({ allowed := false, remaining := 0,
           retryAfter := ((⌈timeToWait / 1000⌉ : ℤ) : ℚ) },
         storeSet store key { tokens := refilled, lastRefillTime := now })

/-- Modelled from the claim's wording, for comparison with the code: the
refilled token count "adds `elapsed * (maxRequests / windowMs)` tokens
clamped to capacity" (the code computes
`elapsed / windowMs * maxRequests`, equal in exact arithmetic). -/
def refillSpec (config : RateLimitConfig) (record : RateLimitRecord)
    (now : ℚ) : ℚ :=
  min config.maxRequests
    (record.tokens +
      (now - record.lastRefillTime) * (config.maxRequests / config.windowMs))

/-- The refilled token count exactly as the code computes it:
`min(maxRequests, tokens + timePassed / windowMs * maxRequests)`. -/
def refillCode (config : RateLimitConfig) (record : RateLimitRecord)
    (now : ℚ) : ℚ :=
  min config.maxRequests
    (record.tokens +
      (now - record.lastRefillTime) / config.windowMs * config.maxRequests)

/-- Default global (per-IP) limit: 100 requests per minute. -/
def defaultGlobalLimit : RateLimitConfig :=
  { windowMs := 60 * 1000, maxRequests := 100 }

/-- Default per-user limit: 200 requests per minute. -/
def defaultPerUserLimit : RateLimitConfig :=
  { windowMs := 60 * 1000, maxRequests := 200 }

/-- The mutable state of one `RateLimiter` instance: the two configs and the
two keyed stores. -/
structure RateLimiterState where
  globalLimit : RateLimitConfig
  perUserLimit : RateLimitConfig
  globalStore : RateLimitStore
  perUserStore : RateLimitStore

/-- A freshly constructed `RateLimiter` with the default configs. -/
def RateLimiter.initial : RateLimiterState :=
  { globalLimit := defaultGlobalLimit
    perUserLimit := defaultPerUserLimit
    globalStore := emptyStore
    perUserStore := emptyStore }

/-- Embedding of `RateLimiter.checkGlobalLimit(ip)`. -/
def RateLimiter.checkGlobalLimit (now : ℚ) (ip : String) (st : RateLimiterState) :
    RateLimitResult × RateLimiterState :=
  let p := RateLimiter.checkLimit now ip st.globalLimit st.globalStore
  (p.1, { st with globalStore := p.2 })

/-- Embedding of `RateLimiter.checkPerUserLimit(userId)`. -/
def RateLimiter.checkPerUserLimit (now : ℚ) (userId : String)
    (st : RateLimiterState) : RateLimitResult × RateLimiterState :=
  let p := RateLimiter.checkLimit now userId st.perUserLimit st.perUserStore
  (p.1, { st with perUserStore := p.2 })

/-- Embedding of `RateLimiter.cleanupStore`: drop every bucket whose
`lastRefillTime` is older than `maxAge` milliseconds. -/
def cleanupStore (s : RateLimitStore) (now maxAge : ℚ) : RateLimitStore :=
  fun k =>
    match s k with
    | some r => if maxAge < now - r.lastRefillTime then none else some r
    | none => none

/-- The fixed inactivity threshold of `RateLimiter.cleanup`: 30 minutes. -/
def cleanupMaxAge : ℚ := 30 * 60 * 1000

/-- One administrative or request-path operation on the limiter. -/
inductive LimiterOp
  | checkGlobal (now : ℚ) (ip : String)
  | checkPerUser (now : ℚ) (userId : String)
  | resetGlobal (ip : String)
  | resetPerUser (userId : String)
  | clearAll
  | cleanup (now : ℚ)

/-- State after one limiter operation (`checkGlobalLimit`,
`checkPerUserLimit`, `resetGlobalLimit`, `resetPerUserLimit`, `clearAll`,
`cleanup`). -/
def LimiterOp.apply (st : RateLimiterState) : LimiterOp → RateLimiterState
  | .checkGlobal now ip => (RateLimiter.checkGlobalLimit now ip st).2
  | .checkPerUser now userId => (RateLimiter.checkPerUserLimit now userId st).2
  | .resetGlobal ip => { st with globalStore := storeDelete st.globalStore ip }
  | .resetPerUser userId =>
      { st with perUserStore := storeDelete st.perUserStore userId }
  | .clearAll => { st with globalStore := emptyStore, perUserStore := emptyStore }
  | .cleanup now =>
      { st with
        globalStore := cleanupStore st.globalStore now cleanupMaxAge
        perUserStore := cleanupStore st.perUserStore now cleanupMaxAge }

/-- The time an operation happens at (`t` for the untimed administrative
operations, which read no clock). -/
def LimiterOp.time (t : ℚ) : LimiterOp → ℚ
  | .checkGlobal now _ => now
  | .checkPerUser now _ => now
  | .resetGlobal _ => t
  | .resetPerUser _ => t
  | .clearAll => t
  | .cleanup now => now

/-- Every bucket of the store holds between 0 and `cap` tokens and was last
refilled no later than `t`. -/
def BucketsInv (cap t : ℚ) (s : RateLimitStore) : Prop :=
  ∀ k r, s k = some r → 0 ≤ r.tokens ∧ r.tokens ≤ cap ∧ r.lastRefillTime ≤ t

/-- Both stores of a limiter satisfy the bucket invariant at time `t`. -/
def LimiterInv (t : ℚ) (st : RateLimiterState) : Prop :=
  BucketsInv st.globalLimit.maxRequests t st.globalStore ∧
    BucketsInv st.perUserLimit.maxRequests t st.perUserStore

/-- Sensible configuration: at least one request per window. -/
def ConfigWF (c : RateLimitConfig) : Prop := 1 ≤ c.maxRequests ∧ 0 ≤ c.windowMs

/-! ## Auth middleware (`src/src/middleware/auth.ts`) -/

/-- Splits a character list at every occurrence of `sep`, keeping empty
pieces, exactly as JavaScript `String.prototype.split` does for a
single-character separator (`''.split(' ') = ['']`,
`'a  b'.split(' ') = ['a', '', 'b']`). -/
def splitOnChar (sep : Char) : List Char → List (List Char)
  | [] => [[]]
  | c :: rest =>
      match splitOnChar sep rest with
      | [] => if c = sep then [[], [c]] else [[c]]
      | w :: ws => if c = sep then [] :: w :: ws else (c :: w) :: ws

/-- JavaScript `s.split(sep)` for a single-character separator. -/
def jsSplit (sep : Char) (s : String) : List String :=
  (splitOnChar sep s.data).map String.mk

/-- Embedding of `extractUserId` (auth.ts, lines 53–80).  The parameter
`decodeSub` abstracts the dynamic tail of the function —
`Buffer.from(seg, 'base64')`, `JSON.parse`, and `payload.sub || null` —
mapping the middle JWT segment to the `sub` claim, `none` when decoding or
parsing fails or `sub` is missing or falsy (in particular empty).
Everything before that point is embedded directly: the header must split on
`' '` into exactly `Bearer` and a token, and the token must split on `'.'`
into exactly three segments. -/
def extractUserId (decodeSub : String → Option String)
    (authorization : Option String) : Option String :=
  match authorization with
  | none => none
  | some authHeader =>
    match jsSplit ' ' authHeader with
    | [scheme, token] =>
        if scheme = "Bearer" then
          match jsSplit '.' token with
          | [_, payloadSeg, _] => decodeSub payloadSeg
          | _ => none
        else none
    | _ => none

/-- What `perUserRateLimit` does with the request. -/
inductive MwOutcome
  | nextCalled
  | rejected (status : Nat) (retryAfter : ℚ)
deriving Repr, DecidableEq

/-- Embedding of `perUserRateLimit` (auth.ts, lines 129–157): extract the
user id from the JWT; with no valid user id, call `next()` and leave the
limiter untouched; otherwise consult the per-user limiter and reject with
429 when denied. -/
def perUserRateLimit (decodeSub : String → Option String)
    (authorization : Option String) (now : ℚ) (st : RateLimiterState) :
    MwOutcome × RateLimiterState :=
  match extractUserId decodeSub authorization with
  | none => (.nextCalled, st)
  | some userId =>
      let p := RateLimiter.checkPerUserLimit now userId st
      if p.1.allowed then (.nextCalled, p.2)
      else (.rejected 429 p.1.retryAfter, p.2)

/-! ## Concrete sample values, used to instantiate the theorems below -/

/-- A sample deduction request. -/
def sampleReq : BillingDeductRequest :=
  { requestId := "req1", userId := "u1", apiId := "a1", endpointId := "e1",
    apiKeyId := "k1", amountUsdc := "0.01" }

/-- A sample stored `usage_events` row for the key of `sampleReq`. -/
def sampleRow : UsageEventRow :=
  { id := 5, user_id := "u1", api_id := "a1", endpoint_id := "e1",
    api_key_id := "k1", amount_usdc := "0.01", request_id := "req1",
    stellar_tx_hash := some "txOld" }

/-- A sample successful deduction call against an empty store. -/
def sampleCall : DeductCall :=
  { req := sampleReq, connect := .ok (), fails := noStoreFailures,
    snapshot := [], soroban := .ok "tx1", nextId := 1 }

/-! ## Helper lemmas -/

/-- A key is absent from the store exactly when the uniqueness scan of
`insertRow` finds no row with that key. -/
lemma findByRequestId_eq_none_iff (s : UsageEventsStore) (key : String) :
    findByRequestId s key = none ↔
      s.any (fun q => q.request_id == key) = false := by
  simp [findByRequestId, List.find?_eq_none, List.any_eq_false]

/-! ## C1 — replay of an already-processed idempotency key -/

/-- C1: for every `deduct` call whose idempotency key already has a stored
`usage_events` record, the service returns that record's id and stored
transaction hash with `alreadyProcessed = true` and `success = true`, and
`deductBalance` is not invoked during the call (the trace holds no ledger
event).  The committed store is returned unchanged. -/
theorem deduct_replays_stored_result (req : BillingDeductRequest)
    (fails : StoreFailures) (store : UsageEventsStore)
    (soroban : SorobanOutcome) (nextId : Nat) (row : UsageEventRow)
    (hsel : fails.selectFail = none)
    (hfound : findByRequestId store req.requestId = some row) :
    (BillingService.deduct req (.ok ()) fails store store soroban nextId).1 =
        .returns
          { success := true, usageEventId := toString row.id,
            stellarTxHash := row.stellar_tx_hash, alreadyProcessed := true,
            error := none } store ∧
      ledgerCalls
        (BillingService.deduct req (.ok ()) fails store store soroban nextId).2 = 0 := by
  simp [BillingService.deduct, hsel, hfound, alreadyProcessedResult, ledgerCalls]

/-- Witness for C1 at a concrete store holding the key. -/
theorem deduct_replays_stored_result_witness :
    (BillingService.deduct sampleReq (.ok ()) noStoreFailures [sampleRow]
          [sampleRow] (.ok "tx2") 9).1 =
        .returns
          { success := true, usageEventId := "5", stellarTxHash := some "txOld",
            alreadyProcessed := true, error := none } [sampleRow] ∧
      ledgerCalls
        (BillingService.deduct sampleReq (.ok ()) noStoreFailures [sampleRow]
          [sampleRow] (.ok "tx2") 9).2 = 0 :=
  deduct_replays_stored_result sampleReq noStoreFailures [sampleRow] (.ok "tx2")
    9 sampleRow rfl (by decide)

/-! ## C2 — rollback when the ledger call fails on a fresh key -/

/-- C2: for every `deduct` call on a fresh idempotency key whose ledger call
fails, the whole transaction (reservation insert included) is rolled back:
the committed store afterwards holds no record for the key, and a
subsequent `deduct` with the same key runs as a fresh attempt
(`alreadyProcessed = false`, a new row is inserted). -/
theorem deduct_ledger_failure_rolls_back (req : BillingDeductRequest)
    (fails : StoreFailures) (store : UsageEventsStore) (msg : String)
    (nextId : Nat)
    (hsel : fails.selectFail = none) (hins : fails.insertFail = none)
    (hfresh : findByRequestId store req.requestId = none) :
    (BillingService.deduct req (.ok ()) fails store store (.fail msg) nextId).1 =
        .returns (failureResult msg) store ∧
      findByRequestId
        ((BillingService.deduct req (.ok ()) fails store store (.fail msg)
            nextId).1).committed req.requestId = none ∧
      ∀ txHash nextId2,
        (BillingService.deduct req (.ok ()) noStoreFailures store store
            (.ok txHash) nextId2).1 =
          .returns
            { success := true, usageEventId := toString nextId2,
              stellarTxHash := some txHash, alreadyProcessed := false,
              error := none }
            (updateTxHash (store ++ [mkUsageEventRow req nextId2]) nextId2 txHash) := by
  have hany := (findByRequestId_eq_none_iff store req.requestId).1 hfresh
  simp [BillingService.deduct, hsel, hins, hfresh, insertRow, mkUsageEventRow,
    hany, DeductOutcome.committed, noStoreFailures, failureResult]

/-- Witness for C2 on the empty store. -/
theorem deduct_ledger_failure_rolls_back_witness :
    (BillingService.deduct sampleReq (.ok ()) noStoreFailures [] []
          (.fail "soroban unavailable") 1).1 =
        .returns (failureResult "soroban unavailable") [] ∧
      findByRequestId
        ((BillingService.deduct sampleReq (.ok ()) noStoreFailures [] []
            (.fail "soroban unavailable") 1).1).committed
        sampleReq.requestId = none ∧
      ∀ txHash nextId2,
        (BillingService.deduct sampleReq (.ok ()) noStoreFailures [] []
            (.ok txHash) nextId2).1 =
          .returns
            { success := true, usageEventId := toString nextId2,
              stellarTxHash := some txHash, alreadyProcessed := false,
              error := none }
            (updateTxHash ([] ++ [mkUsageEventRow sampleReq nextId2]) nextId2
              txHash) :=
  deduct_ledger_failure_rolls_back sampleReq noStoreFailures []
    "soroban unavailable" 1 rfl rfl (by decide)

/-! ## C3 — at most one row per idempotency key -/

/-- Updating a transaction hash changes no `request_id`. -/
lemma map_request_id_updateTxHash (s : UsageEventsStore) (id : Nat) (tx : String) :
    (updateTxHash s id tx).map UsageEventRow.request_id =
      s.map UsageEventRow.request_id := by
  simp only [updateTxHash, List.map_map]
  refine List.map_congr_left ?_
  intro r _
  by_cases h : r.id = id <;> simp [h]

/-- The committed store of a `deduct` call is either untouched or extended by
exactly the reservation row for a key the uniqueness scan found absent. -/
lemma deduct_committed_cases (req : BillingDeductRequest)
    (connect : Except String Unit) (fails : StoreFailures)
    (snapshot store : UsageEventsStore) (soroban : SorobanOutcome)
    (nextId : Nat) :
    ((BillingService.deduct req connect fails snapshot store soroban
        nextId).1).committed = store ∨
      ∃ txHash,
        store.any (fun q => q.request_id == req.requestId) = false ∧
          ((BillingService.deduct req connect fails snapshot store soroban
              nextId).1).committed =
            updateTxHash (store ++ [mkUsageEventRow req nextId]) nextId txHash := by
  cases connect with
  | error msg => left; simp [BillingService.deduct, DeductOutcome.committed]
  | ok u =>
    cases hsf : fails.selectFail with
    | some m => left; simp [BillingService.deduct, hsf, DeductOutcome.committed]
    | none =>
      cases hfind : findByRequestId snapshot req.requestId with
      | some row =>
          left; simp [BillingService.deduct, hsf, hfind, DeductOutcome.committed]
      | none =>
        cases hif : fails.insertFail with
        | some m =>
            left; simp [BillingService.deduct, hsf, hfind, hif,
              DeductOutcome.committed]
        | none =>
          by_cases hany : store.any (fun q => q.request_id == req.requestId) = true
          · left
            have hins : insertRow store (mkUsageEventRow req nextId) =
                .error uniqueViolationMsg := by
              simp [insertRow, mkUsageEventRow, hany]
            cases hw : findByRequestId store req.requestId <;>
              simp [BillingService.deduct, hsf, hfind, hif, hins, hw,
                DeductOutcome.committed]
          · have hany2 : store.any (fun q => q.request_id == req.requestId) = false :=
              Bool.not_eq_true _ ▸ hany
            have hins : insertRow store (mkUsageEventRow req nextId) =
                .ok (store ++ [mkUsageEventRow req nextId]) := by
              simp [insertRow, mkUsageEventRow, hany2]
            cases soroban with
            | hangs =>
                left; simp [BillingService.deduct, hsf, hfind, hif, hins,
                  DeductOutcome.committed]
            | fail m =>
                left; simp [BillingService.deduct, hsf, hfind, hif, hins,
                  DeductOutcome.committed]
            | ok tx =>
              cases huf : fails.updateFail with
              | some m =>
                  left; simp [BillingService.deduct, hsf, hfind, hif, hins, huf,
                    DeductOutcome.committed]
              | none =>
                  right
                  exact ⟨tx, hany2, by
                    simp [BillingService.deduct, hsf, hfind, hif, hins, huf,
                      DeductOutcome.committed]⟩

/-- Committing the reservation for an absent key and attaching its hash
preserves key uniqueness. -/
lemma uniqueKeys_commit (store : UsageEventsStore) (row : UsageEventRow)
    (nextId : Nat) (tx : String) (h : UniqueKeys store)
    (hany : store.any (fun q => q.request_id == row.request_id) = false) :
    UniqueKeys (updateTxHash (store ++ [row]) nextId tx) := by
  unfold UniqueKeys at h ⊢
  rw [map_request_id_updateTxHash, List.map_append]
  have hnotin : row.request_id ∉ store.map UsageEventRow.request_id := by
    simp only [List.any_eq_false] at hany
    simp only [List.mem_map]
    rintro ⟨q, hq, hqid⟩
    exact absurd (by simp [hqid] : (q.request_id == row.request_id) = true)
      (by simpa using hany q hq)
  simp [List.nodup_append, h, hnotin]

/-- After the winner of a race commits, looking the key up finds exactly the
winner's row, its transaction hash attached. -/
lemma findByRequestId_after_commit (req : BillingDeductRequest)
    (store : UsageEventsStore) (nextId : Nat) (tx : String)
    (hfresh : findByRequestId store req.requestId = none) :
    findByRequestId
        (updateTxHash (store ++ [mkUsageEventRow req nextId]) nextId tx)
        req.requestId =
      some
        { id := nextId, user_id := req.userId, api_id := req.apiId,
          endpoint_id := req.endpointId, api_key_id := req.apiKeyId,
          amount_usdc := req.amountUsdc, request_id := req.requestId,
          stellar_tx_hash := some tx } := by
  have h1 : (updateTxHash store nextId tx).find?
      (fun r => r.request_id == req.requestId) = none := by
    rw [List.find?_eq_none]
    intro x hx
    simp only [updateTxHash, List.mem_map] at hx
    obtain ⟨r, hr, hxr⟩ := hx
    have hrid : x.request_id = r.request_id := by
      subst hxr; by_cases h : r.id = nextId <;> simp [h]
    rw [findByRequestId, List.find?_eq_none] at hfresh
    simpa [hrid] using hfresh r hr
  simp only [findByRequestId, updateTxHash, List.map_append] at *
  rw [List.find?_append, h1]
  simp [mkUsageEventRow]

/-- C3: under every sequence of `deduct` calls — concurrent schedules are
covered by letting every call carry an arbitrary, possibly stale,
READ COMMITTED snapshot for its initial lookup while the insert-to-commit
sections serialize on the store's uniqueness constraint — the committed
`usage_events` store never acquires two rows with the same idempotency key:
key uniqueness holds after every prefix of the schedule. -/
theorem usage_events_unique_request_id (calls : List DeductCall)
    (init : UsageEventsStore) (hinit : UniqueKeys init) :
    UniqueKeys (runDeducts init calls) := by
  induction calls generalizing init with
  | nil => simpa [runDeducts]
  | cons c rest ih =>
    rw [runDeducts, List.foldl_cons]
    refine ih _ ?_
    rcases deduct_committed_cases c.req c.connect c.fails c.snapshot init
        c.soroban c.nextId with hsame | ⟨tx, hany, hcommit⟩
    · rw [hsame]; exact hinit
    · rw [hcommit]
      exact uniqueKeys_commit init (mkUsageEventRow c.req c.nextId) c.nextId tx
        hinit (by simpa [mkUsageEventRow] using hany)

/-- Witness for C3: a two-call schedule on the empty store. -/
theorem usage_events_unique_request_id_witness :
    UniqueKeys ([] : UsageEventsStore) ∧
      UniqueKeys (runDeducts [] [sampleCall, sampleCall]) :=
  ⟨by simp [UniqueKeys],
   usage_events_unique_request_id [sampleCall, sampleCall] []
     (by simp [UniqueKeys])⟩

/-! ## C4 — race on one idempotency key, loser resolves the 23505 -/

/-- C4: when two `deduct` calls race on one fresh idempotency key — the
winner committing between the loser's stale snapshot read and the loser's
insert — the loser's insert hits the uniqueness violation, re-queries the
winning record and returns it with `alreadyProcessed = true` and
`success = true` (same id and hash as the winner, `error = none`, committed
store untouched); the violation is never surfaced as an error and the
ledger is invoked exactly once across the two calls. -/
theorem deduct_uniqueness_race (req : BillingDeductRequest)
    (store : UsageEventsStore) (tx : String) (nextId : Nat)
    (soroban2 : SorobanOutcome) (nextId2 : Nat)
    (hfresh : findByRequestId store req.requestId = none) :
    (BillingService.deduct req (.ok ()) noStoreFailures store store (.ok tx)
          nextId).1 =
        .returns
          { success := true, usageEventId := toString nextId,
            stellarTxHash := some tx, alreadyProcessed := false, error := none }
          (updateTxHash (store ++ [mkUsageEventRow req nextId]) nextId tx) ∧
      (BillingService.deduct req (.ok ()) noStoreFailures store
          (updateTxHash (store ++ [mkUsageEventRow req nextId]) nextId tx)
          soroban2 nextId2).1 =
        .returns
          { success := true, usageEventId := toString nextId,
            stellarTxHash := some tx, alreadyProcessed := true, error := none }
          (updateTxHash (store ++ [mkUsageEventRow req nextId]) nextId tx) ∧
      ledgerCalls
          (BillingService.deduct req (.ok ()) noStoreFailures store store
            (.ok tx) nextId).2 +
        ledgerCalls
          (BillingService.deduct req (.ok ()) noStoreFailures store
            (updateTxHash (store ++ [mkUsageEventRow req nextId]) nextId tx)
            soroban2 nextId2).2 = 1 := by
  have hany := (findByRequestId_eq_none_iff store req.requestId).1 hfresh
  have hwin := findByRequestId_after_commit req store nextId tx hfresh
  have hany1 : (updateTxHash (store ++ [mkUsageEventRow req nextId]) nextId
      tx).any (fun q => q.request_id == req.requestId) = true := by
    cases h : (updateTxHash (store ++ [mkUsageEventRow req nextId]) nextId
        tx).any (fun q => q.request_id == req.requestId) with
    | false =>
        have hnone := (findByRequestId_eq_none_iff _ _).2 h
        rw [hnone] at hwin
        exact Option.noConfusion hwin
    | true => rfl
  have hins1 : insertRow store (mkUsageEventRow req nextId) =
      .ok (store ++ [mkUsageEventRow req nextId]) := by
    simp [insertRow, mkUsageEventRow, hany]
  have hins2 : insertRow
      (updateTxHash (store ++ [mkUsageEventRow req nextId]) nextId tx)
      (mkUsageEventRow req nextId2) = .error uniqueViolationMsg := by
    have hany1e := hany1
    simp only [mkUsageEventRow] at hany1e
    simp [insertRow, mkUsageEventRow, hany1e]
  refine ⟨?_, ?_, ?_⟩
  · simp [BillingService.deduct, noStoreFailures, hfresh, hins1]
  · simp [BillingService.deduct, noStoreFailures, hfresh, hins2, hwin,
      alreadyProcessedResult]
  · simp [BillingService.deduct, noStoreFailures, hfresh, hins1, hins2, hwin,
      ledgerCalls]

/-- Witness for C4 on the empty store. -/
theorem deduct_uniqueness_race_witness :
    (BillingService.deduct sampleReq (.ok ()) noStoreFailures [] [] (.ok "txW")
          1).1 =
        .returns
          { success := true, usageEventId := toString 1,
            stellarTxHash := some "txW", alreadyProcessed := false,
            error := none }
          (updateTxHash ([] ++ [mkUsageEventRow sampleReq 1]) 1 "txW") ∧
      (BillingService.deduct sampleReq (.ok ()) noStoreFailures []
          (updateTxHash ([] ++ [mkUsageEventRow sampleReq 1]) 1 "txW")
          (.ok "txL") 2).1 =
        .returns
          { success := true, usageEventId := toString 1,
            stellarTxHash := some "txW", alreadyProcessed := true,
            error := none }
          (updateTxHash ([] ++ [mkUsageEventRow sampleReq 1]) 1 "txW") ∧
      ledgerCalls
          (BillingService.deduct sampleReq (.ok ()) noStoreFailures [] []
            (.ok "txW") 1).2 +
        ledgerCalls
          (BillingService.deduct sampleReq (.ok ()) noStoreFailures []
            (updateTxHash ([] ++ [mkUsageEventRow sampleReq 1]) 1 "txW")
            (.ok "txL") 2).2 = 1 :=
  deduct_uniqueness_race sampleReq [] "txW" 1 (.ok "txL") 2 (by decide)

/-! ## C5 — failures become structured results (corrected) -/

/-- C5 counterexample: a `deduct` call in which the store fails by rejecting
`pool.connect()` does not return a structured `success = false` result —
the rejection propagates to the caller (`thrown` outcome), because
`pool.connect()` sits outside the `try`/`catch` of `deduct`.  This refutes
the claim that every store failure, including failure to obtain a store
connection, is converted into a structured result. -/
theorem deduct_connect_failure_throws :
    (BillingService.deduct sampleReq (.error "connection refused")
        noStoreFailures [] [] (.ok "tx") 1).1 =
      .thrown "connection refused" [] := rfl

/-- C5 amended: once `pool.connect()` has succeeded, no exception escapes
`deduct`; a failing `SELECT`, a failing `INSERT` (other than the uniqueness
violation, which C4 resolves), a failing ledger call, and a failing
`UPDATE` each yield the structured result `success = false` with the error
message set and leave the committed store untouched.  A failure of
`pool.connect()` itself, by contrast, propagates (see the counterexample). -/
theorem deduct_structured_failure_after_connect :
    (∀ (req : BillingDeductRequest) (fails : StoreFailures)
        (snapshot store : UsageEventsStore) (soroban : SorobanOutcome)
        (nextId : Nat) (msg : String) (s : UsageEventsStore),
        (BillingService.deduct req (.ok ()) fails snapshot store soroban
            nextId).1 ≠ .thrown msg s) ∧
      (∀ (req : BillingDeductRequest) (fails : StoreFailures)
          (snapshot store : UsageEventsStore) (soroban : SorobanOutcome)
          (nextId : Nat) (msg : String),
          fails.selectFail = some msg →
            (BillingService.deduct req (.ok ()) fails snapshot store soroban
                nextId).1 = .returns (failureResult msg) store) ∧
      (∀ (req : BillingDeductRequest) (fails : StoreFailures)
          (snapshot store : UsageEventsStore) (soroban : SorobanOutcome)
          (nextId : Nat) (msg : String),
          fails.selectFail = none →
            findByRequestId snapshot req.requestId = none →
              fails.insertFail = some msg →
                (BillingService.deduct req (.ok ()) fails snapshot store soroban
                    nextId).1 = .returns (failureResult msg) store) ∧
      (∀ (req : BillingDeductRequest) (fails : StoreFailures)
          (snapshot store : UsageEventsStore) (nextId : Nat) (msg : String),
          fails.selectFail = none →
            findByRequestId snapshot req.requestId = none →
              fails.insertFail = none →
                store.any (fun q => q.request_id == req.requestId) = false →
                  (BillingService.deduct req (.ok ()) fails snapshot store
                      (.fail msg) nextId).1 = .returns (failureResult msg) store) ∧
      (∀ (req : BillingDeductRequest) (fails : StoreFailures)
          (snapshot store : UsageEventsStore) (nextId : Nat) (tx msg : String),
          fails.selectFail = none →
            findByRequestId snapshot req.requestId = none →
              fails.insertFail = none →
                store.any (fun q => q.request_id == req.requestId) = false →
                  fails.updateFail = some msg →
                    (BillingService.deduct req (.ok ()) fails snapshot store
                        (.ok tx) nextId).1 = .returns (failureResult msg) store) := by
  refine ⟨?_, ?_, ?_, ?_, ?_⟩
  · intro req fails snapshot store sor nextId msg s
    cases hsf : fails.selectFail with
    | some m => simp [BillingService.deduct, hsf]
    | none =>
      cases hfind : findByRequestId snapshot req.requestId with
      | some row => simp [BillingService.deduct, hsf, hfind]
      | none =>
        cases hif : fails.insertFail with
        | some m => simp [BillingService.deduct, hsf, hfind, hif]
        | none =>
          rcases hir : insertRow store (mkUsageEventRow req nextId) with m | s1
          · cases hw : findByRequestId store req.requestId <;>
              simp [BillingService.deduct, hsf, hfind, hif, hir, hw]
          · cases sor with
            | hangs => simp [BillingService.deduct, hsf, hfind, hif, hir]
            | fail m => simp [BillingService.deduct, hsf, hfind, hif, hir]
            | ok tx =>
              cases huf : fails.updateFail <;>
                simp [BillingService.deduct, hsf, hfind, hif, hir, huf]
  · intro req fails snapshot store sor nextId msg hsel
    simp [BillingService.deduct, hsel]
  · intro req fails snapshot store sor nextId msg hsel hfresh hins
    simp [BillingService.deduct, hsel, hfresh, hins]
  · intro req fails snapshot store nextId msg hsel hfresh hins hany
    have hinsrow : insertRow store (mkUsageEventRow req nextId) =
        .ok (store ++ [mkUsageEventRow req nextId]) := by
      simp [insertRow, mkUsageEventRow, hany]
    simp [BillingService.deduct, hsel, hfresh, hins, hinsrow]
  · intro req fails snapshot store nextId tx msg hsel hfresh hins hany hupd
    have hinsrow : insertRow store (mkUsageEventRow req nextId) =
        .ok (store ++ [mkUsageEventRow req nextId]) := by
      simp [insertRow, mkUsageEventRow, hany]
    simp [BillingService.deduct, hsel, hfresh, hins, hinsrow, hupd]

/-- Witness for the amended C5: every failure mode at concrete inputs. -/
theorem deduct_structured_failure_after_connect_witness :
    (BillingService.deduct sampleReq (.ok ()) noStoreFailures [] [] (.ok "tx")
        1).1 ≠ .thrown "boom" [] ∧
      (BillingService.deduct sampleReq (.ok ())
          { selectFail := some "select failed", insertFail := none,
            updateFail := none } [] [] (.ok "tx") 1).1 =
        .returns (failureResult "select failed") [] ∧
      (BillingService.deduct sampleReq (.ok ())
          { selectFail := none, insertFail := some "insert failed",
            updateFail := none } [] [] (.ok "tx") 1).1 =
        .returns (failureResult "insert failed") [] ∧
      (BillingService.deduct sampleReq (.ok ()) noStoreFailures [] []
          (.fail "ledger down") 1).1 = .returns (failureResult "ledger down") [] ∧
      (BillingService.deduct sampleReq (.ok ())
          { selectFail := none, insertFail := none,
            updateFail := some "update failed" } [] [] (.ok "tx") 1).1 =
        .returns (failureResult "update failed") [] :=
  ⟨deduct_structured_failure_after_connect.1 sampleReq noStoreFailures [] []
      (.ok "tx") 1 "boom" [],
   deduct_structured_failure_after_connect.2.1 sampleReq _ [] [] (.ok "tx") 1
      "select failed" rfl,
   deduct_structured_failure_after_connect.2.2.1 sampleReq _ [] [] (.ok "tx") 1
      "insert failed" rfl (by decide) rfl,
   deduct_structured_failure_after_connect.2.2.2.1 sampleReq noStoreFailures []
      [] 1 "ledger down" rfl (by decide) rfl (by decide),
   deduct_structured_failure_after_connect.2.2.2.2 sampleReq _ [] [] 1 "tx"
      "update failed" rfl (by decide) rfl (by decide) rfl⟩

/-! ## C6 — the reservation row is inserted before the ledger is called -/

/-- C6: on every `deduct` path each ledger invocation in the event trace is
preceded by the insertion of the reservation row, and the reservation row
carries no ledger transaction reference; moreover, when the ledger call on
a fresh key never returns, the call ends in the `hung` outcome with the
reservation row pending in the open transaction, so the key stays reserved:
any competing insert for that key fails the store's uniqueness check. -/
theorem deduct_reserves_key_before_ledger :
    (∀ (req : BillingDeductRequest) (connect : Except String Unit)
        (fails : StoreFailures) (snapshot store : UsageEventsStore)
        (soroban : SorobanOutcome) (nextId : Nat),
        ledgerAfterInsert false
          (BillingService.deduct req connect fails snapshot store soroban
            nextId).2 = true) ∧
      (∀ (req : BillingDeductRequest) (fails : StoreFailures)
          (snapshot store : UsageEventsStore) (nextId : Nat),
          fails.selectFail = none →
            findByRequestId snapshot req.requestId = none →
              fails.insertFail = none →
                store.any (fun q => q.request_id == req.requestId) = false →
                  BillingService.deduct req (.ok ()) fails snapshot store
                      .hangs nextId =
                    (.hung store (mkUsageEventRow req nextId),
                      [.beginTx, .selectByRequestId req.requestId,
                        .insertUsageEvent (mkUsageEventRow req nextId),
                        .sorobanDeduct req.userId req.amountUsdc]) ∧
                    (mkUsageEventRow req nextId).stellar_tx_hash = none ∧
                    ∀ r2 : UsageEventRow, r2.request_id = req.requestId →
                      insertRow (store ++ [mkUsageEventRow req nextId]) r2 =
                        .error uniqueViolationMsg) := by
  constructor
  · intro req connect fails snapshot store sor nextId
    cases connect with
    | error msg => simp [BillingService.deduct, ledgerAfterInsert]
    | ok u =>
      cases hsf : fails.selectFail with
      | some m => simp [BillingService.deduct, hsf, ledgerAfterInsert]
      | none =>
        cases hfind : findByRequestId snapshot req.requestId with
        | some row => simp [BillingService.deduct, hsf, hfind, ledgerAfterInsert]
        | none =>
          cases hif : fails.insertFail with
          | some m =>
              simp [BillingService.deduct, hsf, hfind, hif, ledgerAfterInsert]
          | none =>
            rcases hir : insertRow store (mkUsageEventRow req nextId) with m | s1
            · cases hw : findByRequestId store req.requestId <;>
                simp [BillingService.deduct, hsf, hfind, hif, hir, hw,
                  ledgerAfterInsert]
            · cases sor with
              | hangs =>
                  simp [BillingService.deduct, hsf, hfind, hif, hir,
                    ledgerAfterInsert]
              | fail m =>
                  simp [BillingService.deduct, hsf, hfind, hif, hir,
                    ledgerAfterInsert]
              | ok tx =>
                  cases huf : fails.updateFail <;>
                    simp [BillingService.deduct, hsf, hfind, hif, hir, huf,
                      ledgerAfterInsert]
  · intro req fails snapshot store nextId hsel hfresh hins hany
    have hinsrow : insertRow store (mkUsageEventRow req nextId) =
        .ok (store ++ [mkUsageEventRow req nextId]) := by
      simp [insertRow, mkUsageEventRow, hany]
    refine ⟨?_, rfl, ?_⟩
    · simp [BillingService.deduct, hsel, hfresh, hins, hinsrow]
    · intro r2 hr2
      simp [insertRow, mkUsageEventRow, hr2]

/-- Witness for C6: ordering on a successful call and the hung-ledger case. -/
theorem deduct_reserves_key_before_ledger_witness :
    ledgerAfterInsert false
        (BillingService.deduct sampleReq (.ok ()) noStoreFailures [] []
          (.ok "tx") 1).2 = true ∧
      BillingService.deduct sampleReq (.ok ()) noStoreFailures [] []
          .hangs 1 =
        (.hung [] (mkUsageEventRow sampleReq 1),
          [.beginTx, .selectByRequestId sampleReq.requestId,
            .insertUsageEvent (mkUsageEventRow sampleReq 1),
            .sorobanDeduct sampleReq.userId sampleReq.amountUsdc]) ∧
      insertRow ([] ++ [mkUsageEventRow sampleReq 1]) sampleRow =
        .error uniqueViolationMsg :=
  ⟨deduct_reserves_key_before_ledger.1 sampleReq (.ok ()) noStoreFailures [] []
      (.ok "tx") 1,
   (deduct_reserves_key_before_ledger.2 sampleReq noStoreFailures [] [] 1 rfl
      (by decide) rfl (by decide)).1,
   (deduct_reserves_key_before_ledger.2 sampleReq noStoreFailures [] [] 1 rfl
      (by decide) rfl (by decide)).2.2 sampleRow rfl⟩

/-! ## C7 — refill-and-admit rule for an existing bucket -/

/-- C7: for every check on a key that already has a bucket, the limiter adds
`elapsed * (maxRequests / windowMs)` tokens clamped to capacity (the code
computes `elapsed / windowMs * maxRequests`, equal in exact arithmetic) and
sets `lastRefill` to `now`; if the resulting tokens are at least 1 it
subtracts 1 and returns `allowed = true` with `remaining = ⌊tokens⌋`,
otherwise it returns `allowed = false`, `remaining = 0` and
`retryAfterSeconds = ⌈(1 - tokens) / maxRequests * windowMs / 1000⌉`. -/
theorem checkLimit_refill_spec (now : ℚ) (key : String)
    (config : RateLimitConfig) (store : RateLimitStore)
    (record : RateLimitRecord) (hrec : store key = some record) :
    (1 ≤ refillSpec config record now →
        RateLimiter.checkLimit now key config store =
          ({ allowed := true,
             remaining := ((⌊refillSpec config record now - 1⌋ : ℤ) : ℚ),
             retryAfter := 0 },
           storeSet store key
             { tokens := refillSpec config record now - 1,
               lastRefillTime := now })) ∧
      (refillSpec config record now < 1 →
        RateLimiter.checkLimit now key config store =
          ({ allowed := false, remaining := 0,
             retryAfter :=
               ((⌈(1 - refillSpec config record now) / config.maxRequests *
                   config.windowMs / 1000⌉ : ℤ) : ℚ) },
           storeSet store key
             { tokens := refillSpec config record now,
               lastRefillTime := now })) := by
  have hEq : min config.maxRequests
      (record.tokens +
        (now - record.lastRefillTime) / config.windowMs * config.maxRequests) =
      refillSpec config record now := by
    unfold refillSpec
    congr 1
    ring
  simp only [RateLimiter.checkLimit, hrec, hEq]
  constructor
  · intro h1
    rw [if_pos h1]
  · intro h2
    rw [if_neg (not_le.mpr h2)]

/-- Witness for C7: both branches at a concrete bucket. -/
theorem checkLimit_refill_spec_witness :
    (1 ≤ refillSpec defaultGlobalLimit { tokens := 5, lastRefillTime := 0 } 0 →
        RateLimiter.checkLimit 0 "ip1" defaultGlobalLimit
            (storeSet emptyStore "ip1" { tokens := 5, lastRefillTime := 0 }) =
          ({ allowed := true,
             remaining :=
               ((⌊refillSpec defaultGlobalLimit
                   { tokens := 5, lastRefillTime := 0 } 0 - 1⌋ : ℤ) : ℚ),
             retryAfter := 0 },
           storeSet (storeSet emptyStore "ip1" { tokens := 5, lastRefillTime := 0 })
             "ip1"
             { tokens := refillSpec defaultGlobalLimit
                 { tokens := 5, lastRefillTime := 0 } 0 - 1,
               lastRefillTime := 0 })) ∧
      (refillSpec defaultGlobalLimit { tokens := 5, lastRefillTime := 0 } 0 < 1 →
        RateLimiter.checkLimit 0 "ip1" defaultGlobalLimit
            (storeSet emptyStore "ip1" { tokens := 5, lastRefillTime := 0 }) =
          ({ allowed := false, remaining := 0,
             retryAfter :=
               ((⌈(1 - refillSpec defaultGlobalLimit
                     { tokens := 5, lastRefillTime := 0 } 0) /
                   defaultGlobalLimit.maxRequests *
                   defaultGlobalLimit.windowMs / 1000⌉ : ℤ) : ℚ) },
           storeSet (storeSet emptyStore "ip1" { tokens := 5, lastRefillTime := 0 })
             "ip1"
             { tokens := refillSpec defaultGlobalLimit
                 { tokens := 5, lastRefillTime := 0 } 0,
               lastRefillTime := 0 })) :=
  checkLimit_refill_spec 0 "ip1" defaultGlobalLimit
    (storeSet emptyStore "ip1" { tokens := 5, lastRefillTime := 0 })
    { tokens := 5, lastRefillTime := 0 } (by simp [storeSet])

/-! ## C8 — first check on an unseen key -/

/-- C8: for every check on a key with no existing bucket, the limiter creates
a bucket with `tokens = capacity - 1` and `lastRefill = now`, and the
result is `allowed = true` with `remaining = capacity - 1`. -/
theorem checkLimit_unseen_key (now : ℚ) (key : String)
    (config : RateLimitConfig) (store : RateLimitStore)
    (hnew : store key = none) :
    RateLimiter.checkLimit now key config store =
      ({ allowed := true, remaining := config.maxRequests - 1, retryAfter := 0 },
       storeSet store key
         { tokens := config.maxRequests - 1, lastRefillTime := now }) := by
  simp [RateLimiter.checkLimit, hnew]

/-- Witness for C8 on the empty store. -/
theorem checkLimit_unseen_key_witness :
    RateLimiter.checkLimit 0 "ip1" defaultGlobalLimit emptyStore =
      ({ allowed := true, remaining := defaultGlobalLimit.maxRequests - 1,
         retryAfter := 0 },
       storeSet emptyStore "ip1"
         { tokens := defaultGlobalLimit.maxRequests - 1, lastRefillTime := 0 }) :=
  checkLimit_unseen_key 0 "ip1" defaultGlobalLimit emptyStore rfl

/-! ## C9 — token counts stay within `[0, capacity]` -/

/-- The bucket invariant is monotone in the clock. -/
lemma bucketsInv_mono {cap t t2 : ℚ} {s : RateLimitStore}
    (h : BucketsInv cap t s) (ht : t ≤ t2) : BucketsInv cap t2 s := by
  intro k r hk
  rcases h k r hk with ⟨h1, h2, h3⟩
  exact ⟨h1, h2, le_trans h3 ht⟩

/-- The empty store satisfies the bucket invariant. -/
lemma bucketsInv_empty (cap t : ℚ) : BucketsInv cap t emptyStore := by
  intro k r hk
  simp [emptyStore] at hk

/-- Deleting one bucket preserves the invariant. -/
lemma bucketsInv_storeDelete {cap t : ℚ} {s : RateLimitStore} (key : String)
    (h : BucketsInv cap t s) : BucketsInv cap t (storeDelete s key) := by
  intro k r hk
  simp only [storeDelete] at hk
  by_cases hkk : k = key
  · rw [if_pos hkk] at hk
    exact absurd hk (by simp)
  · rw [if_neg hkk] at hk
    exact h k r hk

/-- The cleanup sweep only deletes buckets, so it preserves the invariant. -/
lemma bucketsInv_cleanupStore {cap t now maxAge : ℚ} {s : RateLimitStore}
    (h : BucketsInv cap t s) (ht : t ≤ now) :
    BucketsInv cap now (cleanupStore s now maxAge) := by
  intro k r hk
  simp only [cleanupStore] at hk
  cases hs : s k with
  | none => simp [hs] at hk
  | some r0 =>
    simp only [hs] at hk
    by_cases hc : maxAge < now - r0.lastRefillTime
    · simp [hc] at hk
    · rw [if_neg hc] at hk
      injection hk with hk
      subst hk
      rcases h k r0 hs with ⟨h1, h2, h3⟩
      exact ⟨h1, h2, le_trans h3 ht⟩

/-- Evaluation of `checkLimit` on a key whose bucket exists, phrased with the
code's refilled token count. -/
lemma checkLimit_some_eq (now : ℚ) (key : String) (config : RateLimitConfig)
    (store : RateLimitStore) (record : RateLimitRecord)
    (hk : store key = some record) :
    RateLimiter.checkLimit now key config store =
      if 1 ≤ refillCode config record now then
        ({ allowed := true,
           remaining := ((⌊refillCode config record now - 1⌋ : ℤ) : ℚ),
           retryAfter := 0 },
         storeSet store key
           { tokens := refillCode config record now - 1, lastRefillTime := now })
      else
        ({ allowed := false, remaining := 0,
           retryAfter :=
             ((⌈(1 - refillCode config record now) / config.maxRequests *
                 config.windowMs / 1000⌉ : ℤ) : ℚ) },
         storeSet store key
           { tokens := refillCode config record now, lastRefillTime := now }) := by
  simp only [RateLimiter.checkLimit, hk, refillCode]

/-- Admission checks keep every bucket's tokens within `[0, capacity]` and
stamp `lastRefillTime` no later than `now`. -/
lemma checkLimit_preserves_bucketsInv {t : ℚ} (now : ℚ) (key : String)
    (config : RateLimitConfig) (store : RateLimitStore)
    (hwf : ConfigWF config) (hinv : BucketsInv config.maxRequests t store)
    (ht : t ≤ now) :
    BucketsInv config.maxRequests now
      (RateLimiter.checkLimit now key config store).2 := by
  obtain ⟨hmax, hwin⟩ := hwf
  cases hk : store key with
  | none =>
    have he : RateLimiter.checkLimit now key config store =
        ({ allowed := true, remaining := config.maxRequests - 1,
           retryAfter := 0 },
         storeSet store key
           { tokens := config.maxRequests - 1, lastRefillTime := now }) := by
      simp [RateLimiter.checkLimit, hk]
    rw [he]
    intro k r hr
    simp only [storeSet] at hr
    by_cases hkk : k = key
    · rw [if_pos hkk] at hr
      injection hr with hr
      subst hr
      exact ⟨sub_nonneg.mpr hmax, sub_le_self _ zero_le_one, le_refl now⟩
    · rw [if_neg hkk] at hr
      rcases hinv k r hr with ⟨h1, h2, h3⟩
      exact ⟨h1, h2, le_trans h3 ht⟩
  | some record =>
    rcases hinv key record hk with ⟨hrt0, hrtc, hrlast⟩
    have htadd : 0 ≤ (now - record.lastRefillTime) / config.windowMs *
        config.maxRequests :=
      mul_nonneg (div_nonneg (by linarith [le_trans hrlast ht]) hwin)
        (by linarith)
    have hrefill0 : 0 ≤ refillCode config record now :=
      le_min (by linarith) (by linarith)
    have hrefillc : refillCode config record now ≤ config.maxRequests :=
      min_le_left _ _
    rw [checkLimit_some_eq now key config store record hk]
    by_cases h1 : 1 ≤ refillCode config record now
    · rw [if_pos h1]
      intro k r hr
      simp only [storeSet] at hr
      by_cases hkk : k = key
      · rw [if_pos hkk] at hr
        injection hr with hr
        subst hr
        exact ⟨sub_nonneg.mpr h1,
          le_trans (sub_le_self _ zero_le_one) hrefillc, le_refl now⟩
      · rw [if_neg hkk] at hr
        rcases hinv k r hr with ⟨a, b, c⟩
        exact ⟨a, b, le_trans c ht⟩
    · rw [if_neg h1]
      intro k r hr
      simp only [storeSet] at hr
      by_cases hkk : k = key
      · rw [if_pos hkk] at hr
        injection hr with hr
        subst hr
        exact ⟨hrefill0, hrefillc, le_refl now⟩
      · rw [if_neg hkk] at hr
        rcases hinv k r hr with ⟨a, b, c⟩
        exact ⟨a, b, le_trans c ht⟩

/-- C9: after every limiter operation — a check on any key, a reset, a
`clearAll`, or a cleanup sweep — every bucket's token count lies in
`[0, capacity]` and its refill stamp does not outrun the clock
(given well-formed configs and a monotone clock); and the `remaining`
value returned by a check is never negative, never exceeds
`capacity - 1` on an allowed call, and is 0 on a denied call. -/
theorem limiter_tokens_bounded :
    (∀ (st : RateLimiterState) (t : ℚ) (op : LimiterOp),
        ConfigWF st.globalLimit → ConfigWF st.perUserLimit →
          LimiterInv t st → t ≤ LimiterOp.time t op →
            LimiterInv (LimiterOp.time t op) (LimiterOp.apply st op)) ∧
      (∀ (now : ℚ) (key : String) (config : RateLimitConfig)
          (store : RateLimitStore),
          ConfigWF config →
            0 ≤ ((RateLimiter.checkLimit now key config store).1).remaining ∧
              (((RateLimiter.checkLimit now key config store).1).allowed = true →
                ((RateLimiter.checkLimit now key config store).1).remaining ≤
                  config.maxRequests - 1) ∧
              (((RateLimiter.checkLimit now key config store).1).allowed = false →
                ((RateLimiter.checkLimit now key config store).1).remaining = 0)) := by
  constructor
  · intro st t op hwfg hwfu hinv htime
    rcases hinv with ⟨hg, hu⟩
    cases op with
    | checkGlobal now ip =>
        exact ⟨checkLimit_preserves_bucketsInv now ip st.globalLimit
            st.globalStore hwfg hg htime,
          bucketsInv_mono hu htime⟩
    | checkPerUser now userId =>
        exact ⟨bucketsInv_mono hg htime,
          checkLimit_preserves_bucketsInv now userId st.perUserLimit
            st.perUserStore hwfu hu htime⟩
    | resetGlobal ip =>
        exact ⟨bucketsInv_storeDelete ip hg, hu⟩
    | resetPerUser userId =>
        exact ⟨hg, bucketsInv_storeDelete userId hu⟩
    | clearAll =>
        exact ⟨bucketsInv_empty _ _, bucketsInv_empty _ _⟩
    | cleanup now =>
        exact ⟨bucketsInv_cleanupStore hg htime, bucketsInv_cleanupStore hu htime⟩
  · intro now key config store hwf
    obtain ⟨hmax, hwin⟩ := hwf
    cases hk : store key with
    | none =>
      have he : RateLimiter.checkLimit now key config store =
          ({ allowed := true, remaining := config.maxRequests - 1,
             retryAfter := 0 },
           storeSet store key
             { tokens := config.maxRequests - 1, lastRefillTime := now }) := by
        simp [RateLimiter.checkLimit, hk]
      rw [he]
      exact ⟨sub_nonneg.mpr hmax, fun _ => le_refl _,
        fun h => Bool.noConfusion h⟩
    | some record =>
      rw [checkLimit_some_eq now key config store record hk]
      by_cases h1 : 1 ≤ refillCode config record now
      · rw [if_pos h1]
        refine ⟨?_, fun _ => ?_, fun h => Bool.noConfusion h⟩
        · show (0 : ℚ) ≤ ((⌊refillCode config record now - 1⌋ : ℤ) : ℚ)
          have h0 : (0 : ℤ) ≤ ⌊refillCode config record now - 1⌋ := by
            rw [Int.le_floor]
            push_cast
            linarith
          exact_mod_cast h0
        · show ((⌊refillCode config record now - 1⌋ : ℤ) : ℚ) ≤
            config.maxRequests - 1
          have h2 : ((⌊refillCode config record now - 1⌋ : ℤ) : ℚ) ≤
              refillCode config record now - 1 :=
            Int.floor_le _
          have h3 : refillCode config record now ≤ config.maxRequests :=
            min_le_left _ _
          linarith
      · rw [if_neg h1]
        exact ⟨le_refl _, fun h => Bool.noConfusion h, fun _ => rfl⟩

/-- Witness for C9: one check operation from the initial limiter state. -/
theorem limiter_tokens_bounded_witness :
    LimiterInv 0 (LimiterOp.apply RateLimiter.initial (.checkGlobal 0 "ip1")) ∧
      0 ≤ ((RateLimiter.checkLimit 0 "ip1" defaultGlobalLimit
          emptyStore).1).remaining :=
  ⟨by
    simpa using limiter_tokens_bounded.1 RateLimiter.initial 0
      (.checkGlobal 0 "ip1") (by constructor <;> norm_num [RateLimiter.initial, defaultGlobalLimit, ConfigWF])
      (by constructor <;> norm_num [RateLimiter.initial, defaultPerUserLimit, ConfigWF])
      ⟨bucketsInv_empty _ _, bucketsInv_empty _ _⟩ (le_refl _),
   (limiter_tokens_bounded.2 0 "ip1" defaultGlobalLimit emptyStore
      (by constructor <;> norm_num [defaultGlobalLimit, ConfigWF])).1⟩

/-! ## C10 — requests without a decodable Bearer JWT bypass the per-user
limiter -/

/-- When `extractUserId` produces a user id, the request necessarily carried
a `Bearer` header whose token splits into three segments with a decodable
`sub` claim. -/
lemma extractUserId_some_shape (decodeSub : String → Option String)
    (auth : Option String) (u : String)
    (h : extractUserId decodeSub auth = some u) :
    ∃ hdr token s1 payload s3,
      auth = some hdr ∧ jsSplit ' ' hdr = ["Bearer", token] ∧
        jsSplit '.' token = [s1, payload, s3] ∧ decodeSub payload = some u := by
  cases auth with
  | none => simp [extractUserId] at h
  | some hdr =>
    rcases hs : jsSplit ' ' hdr with _ | ⟨scheme, _ | ⟨token, _ | ⟨x, xs⟩⟩⟩
    · simp [extractUserId, hs] at h
    · simp [extractUserId, hs] at h
    · simp only [extractUserId, hs] at h
      by_cases hb : scheme = "Bearer"
      · rw [if_pos hb] at h
        subst hb
        rcases ht : jsSplit '.' token with
          _ | ⟨s1, _ | ⟨payload, _ | ⟨s3, _ | ⟨y, ys⟩⟩⟩⟩
        · rw [ht] at h; simp at h
        · rw [ht] at h; simp at h
        · rw [ht] at h; simp at h
        · rw [ht] at h
          exact ⟨hdr, token, s1, payload, s3, rfl, hs, ht, h⟩
        · rw [ht] at h; simp at h
      · rw [if_neg hb] at h
        exact Option.noConfusion h
    · simp [extractUserId, hs] at h

/-- C10: whenever the `Authorization` header does not carry a Bearer token
splitting into three JWT segments with a decodable, non-empty `sub` claim,
`extractUserId` returns `none`, and `perUserRateLimit` then calls `next()`
and returns the limiter state unchanged — no per-user bucket is consulted,
created or mutated, leaving only the global (IP) limit to apply. -/
theorem perUserRateLimit_skips_unauthenticated :
    (∀ (decodeSub : String → Option String) (auth : Option String),
        (¬ ∃ hdr token s1 payload s3 u,
            auth = some hdr ∧ jsSplit ' ' hdr = ["Bearer", token] ∧
              jsSplit '.' token = [s1, payload, s3] ∧
                decodeSub payload = some u) →
          extractUserId decodeSub auth = none) ∧
      (∀ (decodeSub : String → Option String) (auth : Option String) (now : ℚ)
          (st : RateLimiterState),
          extractUserId decodeSub auth = none →
            perUserRateLimit decodeSub auth now st = (.nextCalled, st)) := by
  constructor
  · intro decodeSub auth hno
    cases he : extractUserId decodeSub auth with
    | none => rfl
    | some u =>
        obtain ⟨hdr, token, s1, payload, s3, h1, h2, h3, h4⟩ :=
          extractUserId_some_shape decodeSub auth u he
        exact absurd ⟨hdr, token, s1, payload, s3, u, h1, h2, h3, h4⟩ hno
  · intro decodeSub auth now st he
    simp [perUserRateLimit, he]

/-- Witness for C10: a Bearer token whose payload decodes to no `sub`. -/
theorem perUserRateLimit_skips_unauthenticated_witness :
    extractUserId (fun _ => none) (some "Bearer a.b.c") = none ∧
      perUserRateLimit (fun _ => none) (some "Bearer a.b.c") 0
          RateLimiter.initial = (.nextCalled, RateLimiter.initial) :=
  ⟨perUserRateLimit_skips_unauthenticated.1 (fun _ => none)
      (some "Bearer a.b.c") (by simp),
   perUserRateLimit_skips_unauthenticated.2 (fun _ => none)
      (some "Bearer a.b.c") 0 RateLimiter.initial (by decide)⟩
